import Mathlib

/-!
Shallow embedding of `core/ocr_processor.py` (class `OCRProcessor`), the OCR
wrapper that extracts text from PDF files.  External effects (filesystem,
`pdf2image.convert_from_path`, `PIL` image operations, `pytesseract`) are
modelled by an explicit environment `Env`; each operation additionally
returns a trace of observable events (file-open attempts, sleeps,
rasterizer invocations, crop calls, log records) so that claims about
retries, logging and "the rasterizer is never invoked" can be stated.
Python exceptions are modelled by `Except String`; the public methods wrap
their bodies in the outer `try/except` exactly as the source does.
-/

namespace OCRProc

/-- Rasterized page images are abstract; only their identity matters. -/
abbrev Image := Nat

/-- Severity levels of the `logging` module as used by the source. -/
inductive LogLevel
  | debug
  | info
  | warning
  | error
deriving DecidableEq, Repr

/-- Observable events of one call: log records, file-open attempts
(calls to open the file for binary reading, numbered by loop index),
`time.sleep` calls,
`convert_from_path` invocations, and `Image.crop` calls with their box. -/
inductive Event
  | log (lvl : LogLevel)
  | openAttempt (i : Nat)
  | sleep (secs : Nat)
  | rasterize
  | crop (box : Int × Int × Int × Int)
deriving DecidableEq, Repr

/-- The environment: everything the wrapper observes from the outside world.
`openOk i` tells whether the `open` call on retry attempt `i` succeeds
(the file may be locked at first and released later); `fileContent` is the
byte content of the file at `normpath pdfPath`, so the 4-byte header read
is `fileContent.take 4`.  The rasterizer and OCR engine may raise, hence
`Except`. -/
structure Env where
  normpath : String → String
  pathExists : String → Bool
  openOk : Nat → Bool
  fileContent : List Nat
  dirname : String
  convertFull : String → Nat → String → Except String (List Image)
  convertPage : String → Nat → Int → Int → String → Except String (List Image)
  grayscale : Image → Image
  ocrFull : Image → String → Except String String
  ocrZone : Image → String → String → Except String String
  cropImg : Image → (Int × Int × Int × Int) → Except String Image

/-- The four bytes of the PDF signature %PDF. -/
def pdfMagic : List Nat := [37, 80, 68, 70]

/-- The poppler support directory: the join of the module directory with
the fixed subpath `../poppler/bin`, then `os.path.normpath`. -/
def popplerDir (env : Env) : String :=
  env.normpath (env.dirname ++ "/../poppler/bin")

/-- The tesseract configuration string used for zone extraction:
a raw-string literal spelling `--oem 3 --psm 6`. -/
def zoneConfig : String := "--oem 3 --psm 6"

/-- Python whitespace as stripped by `str.strip()` (ASCII part). -/
def isPySpace (c : Char) : Bool :=
  c == ' ' || c == '\t' || c == '\n' || c == '\r' || c == '\x0b' || c == '\x0c'

/-- `str.strip()`: remove leading and trailing whitespace. -/
def pyStrip (s : String) : String :=
  String.mk (((s.data.dropWhile isPySpace).reverse.dropWhile isPySpace).reverse)

/-- Outcome of the retry loop in `extract_text_from_pdf` (lines 64-81):
the loop `break`s (header is `%PDF`), returns `""` because the header is
wrong, or returns `""` because every open attempt raised. -/
inductive LockResult
  | proceed
  | badHeader
  | openFailed
deriving DecidableEq, Repr

/-- The retry loop `for i in range(max_retries)` of `extract_text_from_pdf`:
attempt to open the file; on success compare the first 4 bytes with
the signature bytes (`break` on match, error-log and fail on mismatch); on a raised
open, warn and sleep 1 second unless this was the last attempt.  `rem` is
the number of attempts still available (`max_retries - i`). -/
def lockLoop (env : Env) (i : Nat) : Nat → LockResult × List Event
  | 0 => (.openFailed, [])
  | rem + 1 =>
    if env.openOk i = true then
      if env.fileContent.take 4 = pdfMagic then
        (.proceed, [.openAttempt i])
      else
        (.badHeader, [.openAttempt i, .log .error])
    else
      if rem = 0 then
        (.openFailed, [.openAttempt i, .log .error])
      else
        let r := lockLoop env (i + 1) rem
        (r.1, .openAttempt i :: .log .warning :: .sleep 1 :: r.2)

/-- The block appended for page index `i` (0-based): the delimiter header
for page number `i + 1`, a newline, and the page text. -/
def pageBlock (i : Nat) (t : String) : String :=
  "--- Seite " ++ toString (i + 1) ++ " ---\n" ++ t

/-- The per-page OCR loop of `extract_text_from_pdf` (lines 97-103):
debug-log, grayscale-preprocess, OCR each page, collect the page blocks.
A raised OCR call aborts the loop (caught by the outer handler). -/
def ocrPages (env : Env) (language : String) : List Image → Nat → Except String (List String) × List Event
  | [], _ => (.ok [], [])
  | img :: rest, i =>
    match env.ocrFull (env.grayscale img) language with
    | .error e => (.error e, [.log .debug])
    | .ok t =>
      let pr := ocrPages env language rest (i + 1)
      match pr.1 with
      | .error e => (.error e, .log .debug :: pr.2)
      | .ok ts => (.ok (pageBlock i t :: ts), .log .debug :: pr.2)

/-- Body of `extract_text_from_pdf` inside the outer `try` (lines 55-108):
normalize the path, existence check, retry/signature loop, poppler
existence check, rasterize, OCR every page, join with `"\n\n"`.
`Except.error` models an exception escaping to the outer handler. -/
def bodyPdf (env : Env) (pdfPath language : String) : Except String String × List Event :=
  let path := env.normpath pdfPath
  if env.pathExists path = false then
    (.ok "", [.log .error])
  else
    match lockLoop env 0 3 with
    | (.badHeader, tr) => (.ok "", tr)
    | (.openFailed, tr) => (.ok "", tr)
    | (.proceed, tr) =>
      let ppath := popplerDir env
      if env.pathExists ppath = false then
        (.ok "", tr ++ [.log .debug, .log .error])
      else
        match env.convertFull path 300 ppath with
        | .error e => (.error e, tr ++ [.log .debug, .rasterize])
        | .ok images =>
          let pr := ocrPages env language images 0
          match pr.1 with
          | .error e => (.error e, tr ++ [.log .debug, .rasterize] ++ pr.2)
          | .ok blocks =>
            (.ok (String.intercalate "\n\n" blocks),
             tr ++ [.log .debug, .rasterize] ++ pr.2 ++ [.log .info])

/-- `OCRProcessor.extract_text_from_pdf`: the body wrapped in the outer
`try/except` that error-logs and returns `""` on any exception. -/
def extract_text_from_pdf (env : Env) (pdfPath : String) (language : String := "deu") : String × List Event :=
  match bodyPdf env pdfPath language with
  | (.ok s, tr) => (s, tr)
  | (.error _, tr) => ("", tr ++ [.log .error])

/-- Body of `extract_text_from_zone` inside the outer `try` (lines 120-157):
normalize the path, existence check, rasterize only the requested page
(no retry loop, no signature check, no poppler existence check), take the
first image, crop to `(x, y, x + w, y + h)`, grayscale, OCR with the zone
configuration, strip. -/
def bodyZone (env : Env) (pdfPath : String) (pageNum : Int) (zone : Int × Int × Int × Int) (language : String) : Except String String × List Event :=
  let path := env.normpath pdfPath
  if env.pathExists path = false then
    (.ok "", [.log .error])
  else
    let ppath := popplerDir env
    match env.convertPage path 300 pageNum pageNum ppath with
    | .error e => (.error e, [.log .debug, .rasterize])
    | .ok [] => (.ok "", [.log .debug, .rasterize, .log .warning])
    | .ok (img :: _) =>
      match zone with
      | (x, y, w, h) =>
        match env.cropImg img (x, y, x + w, y + h) with
        | .error e => (.error e, [.log .debug, .rasterize, .crop (x, y, x + w, y + h)])
        | .ok cropped =>
          match env.ocrZone (env.grayscale cropped) language zoneConfig with
          | .error e => (.error e, [.log .debug, .rasterize, .crop (x, y, x + w, y + h)])
          | .ok t =>
            (.ok (pyStrip t),
             [.log .debug, .rasterize, .crop (x, y, x + w, y + h), .log .debug])

/-- `OCRProcessor.extract_text_from_zone`: the body wrapped in the outer
`try/except` that error-logs and returns `""` on any exception. -/
def extract_text_from_zone (env : Env) (pdfPath : String) (pageNum : Int) (zone : Int × Int × Int × Int) (language : String := "deu") : String × List Event :=
  match bodyZone env pdfPath pageNum zone language with
  | (.ok s, tr) => (s, tr)
  | (.error _, tr) => ("", tr ++ [.log .error])

/-- Recognizes file-open attempt events. -/
def isOpenEv : Event → Bool
  | .openAttempt _ => true
  | _ => false

/-- Recognizes sleep events. -/
def isSleepEv : Event → Bool
  | .sleep _ => true
  | _ => false

/-- Recognizes rasterizer invocations. -/
def isRasterEv : Event → Bool
  | .rasterize => true
  | _ => false

/-- Recognizes log records of a given level. -/
def isLogEv (lvl : LogLevel) : Event → Bool
  | .log l => l == lvl
  | _ => false

/-- Number of file-open attempts in a trace. -/
def countOpens (tr : List Event) : Nat := tr.countP isOpenEv

/-- Number of sleeps in a trace. -/
def countSleeps (tr : List Event) : Nat := tr.countP isSleepEv

/-- Number of rasterizer invocations in a trace. -/
def countRasterize (tr : List Event) : Nat := tr.countP isRasterEv

/-- Number of log records of a given level in a trace. -/
def countLogs (lvl : LogLevel) (tr : List Event) : Nat := tr.countP (isLogEv lvl)

/-- Substring test on character lists: `pat` occurs somewhere in the list. -/
def containsSub (pat : List Char) : List Char → Bool
  | [] => pat.isEmpty
  | c :: rest => pat.isPrefixOf (c :: rest) || containsSub pat rest

/-- The page-delimiter header for (1-based) page number `n`. -/
def seiteMarker (n : Nat) : String :=
  "--- Seite " ++ toString n ++ " ---"

/-- The texts the OCR engine produces for a list of page images (after
grayscale preprocessing), provided no OCR call raises. -/
def ocrTexts (env : Env) (language : String) : List Image → Option (List String)
  | [] => some []
  | img :: rest =>
    match env.ocrFull (env.grayscale img) language with
    | .error _ => none
    | .ok t => (ocrTexts env language rest).map (fun ts => t :: ts)

/-- The page blocks produced from page texts, starting at 0-based index `i`. -/
def blocksFrom : Nat → List String → List String
  | _, [] => []
  | i, t :: ts => pageBlock i t :: blocksFrom (i + 1) ts

/-- The assembled full-document result as the spec words it: for page texts
`t1..tN`, the blocks `"--- Seite i ---\n" ++ ti` for `i = 1..N`, to be
joined by a blank line. -/
def specBlocks (texts : List String) : List String :=
  (List.zip (List.range' 1 texts.length) texts).map
    (fun pr => "--- Seite " ++ toString pr.1 ++ " ---\n" ++ pr.2)

/-- An environment in which everything succeeds: the file exists, is a
valid PDF, rasterizes to two pages reading INVOICE and RECEIPT, and zone
OCR reads a padded "Invoice #123". -/
def envHappy : Env where
  normpath := id
  pathExists := fun _ => true
  openOk := fun _ => true
  fileContent := [37, 80, 68, 70, 49, 46]
  dirname := "core"
  convertFull := fun _ _ _ => .ok [0, 1]
  convertPage := fun _ _ _ _ _ => .ok [5]
  grayscale := id
  ocrFull := fun img _ => .ok (if img = 0 then "INVOICE" else "RECEIPT")
  ocrZone := fun _ _ _ => .ok "  Invoice #123  "
  cropImg := fun img _ => .ok (img + 100)

/-- An environment whose filesystem holds no file at all. -/
def envMissing : Env :=
  { envHappy with pathExists := fun _ => false }

/-- An environment in which the file exists but every open attempt raises
(the file stays locked). -/
def envLocked : Env :=
  { envHappy with openOk := fun _ => false }

/-- An environment whose file exists and opens but does not start with
`%PDF`. -/
def envBadMagic : Env :=
  { envHappy with fileContent := [80, 75, 3, 4, 0] }

/-- An environment in which every path exists except the bundled
`poppler/bin` directory. -/
def envNoPoppler : Env :=
  { envHappy with pathExists := fun s => s != "core/../poppler/bin" }

/-- An environment whose valid PDF rasterizes to zero page images. -/
def envZeroPages : Env :=
  { envHappy with convertFull := fun _ _ _ => .ok [] }

/-- An environment whose file exists, opens, and holds a single byte. -/
def envShortFile : Env :=
  { envHappy with fileContent := [37] }

/-- If an element survives at the head of `dropWhile p`, it fails `p`. -/
theorem head_dropWhile_false {α : Type} (p : α → Bool) (l : List α) {c : α}
    (h : (l.dropWhile p).head? = some c) : p c = false := by
  induction l with
  | nil => simp at h
  | cons a t ih =>
    by_cases hp : p a = true
    · rw [List.dropWhile_cons_of_pos hp] at h
      exact ih h
    · rw [List.dropWhile_cons_of_neg hp] at h
      simp at h
      rw [← h]
      exact Bool.eq_false_iff.mpr hp

/-- The first character of a stripped string is not whitespace. -/
theorem pyStrip_head {s : String} {c : Char}
    (h : (pyStrip s).data.head? = some c) : isPySpace c = false := by
  unfold pyStrip at h
  rw [List.head?_reverse] at h
  have hsuf := List.dropWhile_suffix (l := (s.data.dropWhile isPySpace).reverse) isPySpace
  obtain ⟨pre, hpre⟩ := hsuf
  have hne : (s.data.dropWhile isPySpace).reverse.dropWhile isPySpace ≠ [] := by
    intro hnil
    rw [hnil] at h
    simp at h
  have : (s.data.dropWhile isPySpace).reverse.getLast? = some c := by
    rw [← hpre, List.getLast?_append_of_ne_nil pre hne]
    exact h
  rw [List.getLast?_reverse] at this
  exact head_dropWhile_false isPySpace _ this

/-- The last character of a stripped string is not whitespace. -/
theorem pyStrip_getLast {s : String} {c : Char}
    (h : (pyStrip s).data.getLast? = some c) : isPySpace c = false := by
  unfold pyStrip at h
  rw [List.getLast?_reverse] at h
  exact head_dropWhile_false isPySpace _ h

/-- Traces of the per-page OCR loop contain only debug log records. -/
theorem ocrPages_events (env : Env) (language : String) :
    ∀ imgs i, ∀ e ∈ (ocrPages env language imgs i).2, e = Event.log .debug := by
  intro imgs
  induction imgs with
  | nil => intro i e he; simp [ocrPages] at he
  | cons img rest ih =>
    intro i e he
    simp only [ocrPages] at he
    rcases hocr : env.ocrFull (env.grayscale img) language with e' | t <;>
      rw [hocr] at he
    · simp at he; simp [he]
    · rcases hr : (ocrPages env language rest (i + 1)).1 with e' | ts <;>
        rw [hr] at he <;> simp at he <;>
        rcases he with he | he
      · simp [he]
      · exact ih (i + 1) e he
      · simp [he]
      · exact ih (i + 1) e he

/-- The per-page OCR loop performs no open attempts, sleeps or rasterizer
invocations. -/
theorem ocrPages_counts (env : Env) (language : String) (imgs : List Image) (i : Nat) :
    countOpens (ocrPages env language imgs i).2 = 0 ∧
    countSleeps (ocrPages env language imgs i).2 = 0 ∧
    countRasterize (ocrPages env language imgs i).2 = 0 := by
  refine ⟨?_, ?_, ?_⟩ <;>
    [unfold countOpens; unfold countSleeps; unfold countRasterize] <;>
    rw [List.countP_eq_zero] <;>
    intro e he <;>
    rw [ocrPages_events env language imgs i e he] <;>
    simp [isOpenEv, isSleepEv, isRasterEv]

/-- The retry loop never invokes the rasterizer. -/
theorem lockLoop_no_raster (env : Env) :
    ∀ r i, countRasterize (lockLoop env i r).2 = 0 := by
  intro r
  induction r with
  | zero => intro i; simp [lockLoop, countRasterize]
  | succ n ih =>
    intro i
    by_cases h1 : env.openOk i = true
    · by_cases h2 : env.fileContent.take 4 = pdfMagic <;>
        simp [lockLoop, h1, h2, countRasterize, List.countP_cons, isRasterEv]
    · by_cases h3 : n = 0
      · simp [lockLoop, h1, h3, countRasterize, List.countP_cons, isRasterEv]
      · simp only [lockLoop, if_neg h1, if_neg h3, eq_self_iff_true]
        simp [countRasterize, List.countP_cons, isRasterEv] at ih ⊢
        exact ih (i + 1)

/-- The retry loop opens the file at most `r` times in `r` attempts. -/
theorem lockLoop_opens_le (env : Env) :
    ∀ r i, countOpens (lockLoop env i r).2 ≤ r := by
  intro r
  induction r with
  | zero => intro i; simp [lockLoop, countOpens]
  | succ n ih =>
    intro i
    by_cases h1 : env.openOk i = true
    · by_cases h2 : env.fileContent.take 4 = pdfMagic <;>
        simp [lockLoop, h1, h2, countOpens, List.countP_cons, isOpenEv]
    · by_cases h3 : n = 0
      · simp [lockLoop, h1, h3, countOpens, List.countP_cons, isOpenEv]
      · simp only [lockLoop, if_neg h1, if_neg h3]
        simp [countOpens, List.countP_cons, isOpenEv] at ih ⊢
        have := ih (i + 1)
        omega

/-- Every sleep performed by the retry loop lasts 1 second. -/
theorem lockLoop_sleep_one (env : Env) :
    ∀ r i n, Event.sleep n ∈ (lockLoop env i r).2 → n = 1 := by
  intro r
  induction r with
  | zero => intro i n h; simp [lockLoop] at h
  | succ m ih =>
    intro i n h
    by_cases h1 : env.openOk i = true
    · by_cases h2 : env.fileContent.take 4 = pdfMagic <;>
        simp [lockLoop, h1, h2] at h
    · by_cases h3 : m = 0
      · simp [lockLoop, h1, h3] at h
      · simp only [lockLoop, if_neg h1, if_neg h3] at h
        simp only [List.mem_cons] at h
        rcases h with h | h | h | h
        · exact absurd h (by simp)
        · exact absurd h (by simp)
        · simpa using h
        · exact ih (i + 1) n h

/-- C1: Totality of the public interface.  For every environment and every
input (path, language, page number, zone), each public operation returns a
plain string: either the empty string (the value of every failure path,
including a raised exception in the body) or the value its body computed
without raising.  In particular no exception reaches the caller. -/
theorem c1_totality (env : Env) (p l : String) (pg : Int) (z : Int × Int × Int × Int) :
    ((extract_text_from_pdf env p l).1 = "" ∨
      (bodyPdf env p l).1 = .ok (extract_text_from_pdf env p l).1) ∧
    ((extract_text_from_zone env p pg z l).1 = "" ∨
      (bodyZone env p pg z l).1 = .ok (extract_text_from_zone env p pg z l).1) := by
  constructor
  · rcases h : bodyPdf env p l with ⟨r, tr⟩
    cases r with
    | ok s => right; simp [extract_text_from_pdf, h]
    | error e => left; simp [extract_text_from_pdf, h]
  · rcases h : bodyZone env p pg z l with ⟨r, tr⟩
    cases r with
    | ok s => right; simp [extract_text_from_zone, h]
    | error e => left; simp [extract_text_from_zone, h]

/-- C5: for every path that does not resolve to an existing file, both
operations return the empty string and never invoke the rasterizer. -/
theorem c5_nonexistent (env : Env) (p l : String) (pg : Int) (z : Int × Int × Int × Int)
    (h : env.pathExists (env.normpath p) = false) :
    (extract_text_from_pdf env p l).1 = "" ∧
    countRasterize (extract_text_from_pdf env p l).2 = 0 ∧
    (extract_text_from_zone env p pg z l).1 = "" ∧
    countRasterize (extract_text_from_zone env p pg z l).2 = 0 := by
  have hp : bodyPdf env p l = (.ok "", [.log .error]) := by
    simp [bodyPdf, h]
  have hz : bodyZone env p pg z l = (.ok "", [.log .error]) := by
    simp [bodyZone, h]
  refine ⟨?_, ?_, ?_, ?_⟩ <;>
    simp [extract_text_from_pdf, extract_text_from_zone, hp, hz,
      countRasterize, List.countP_cons, isRasterEv]

/-- C5 witness at a concrete input. -/
theorem c5_nonexistent_witness :
    envMissing.pathExists (envMissing.normpath "in/doc.pdf") = false ∧
    ((extract_text_from_pdf envMissing "in/doc.pdf" "deu").1 = "" ∧
     countRasterize (extract_text_from_pdf envMissing "in/doc.pdf" "deu").2 = 0 ∧
     (extract_text_from_zone envMissing "in/doc.pdf" 1 (0, 0, 200, 50) "deu").1 = "" ∧
     countRasterize (extract_text_from_zone envMissing "in/doc.pdf" 1 (0, 0, 200, 50) "deu").2 = 0) :=
  ⟨by decide, c5_nonexistent envMissing "in/doc.pdf" "deu" 1 (0, 0, 200, 50) (by decide)⟩

/-- C10: an existing, readable file shorter than 4 bytes yields a header
read of fewer than 4 bytes, so the signature comparison fails and
full-document extraction returns the empty string on the first attempt,
via the normal (non-raising) return. -/
theorem c10_short_file (env : Env) (p l : String)
    (hex : env.pathExists (env.normpath p) = true)
    (hopen : env.openOk 0 = true)
    (hlen : env.fileContent.length < 4) :
    env.fileContent.take 4 ≠ pdfMagic ∧
    (bodyPdf env p l).1 = .ok "" ∧
    (extract_text_from_pdf env p l).1 = "" ∧
    countOpens (extract_text_from_pdf env p l).2 = 1 ∧
    countSleeps (extract_text_from_pdf env p l).2 = 0 ∧
    countRasterize (extract_text_from_pdf env p l).2 = 0 := by
  have hne : env.fileContent.take 4 ≠ pdfMagic := by
    intro hcontra
    have h4 : (env.fileContent.take 4).length = 4 := by rw [hcontra]; rfl
    rw [List.length_take] at h4
    omega
  have hlock : lockLoop env 0 3 = (.badHeader, [.openAttempt 0, .log .error]) := by
    simp [lockLoop, hopen, hne]
  have hbody : bodyPdf env p l = (.ok "", [.openAttempt 0, .log .error]) := by
    simp [bodyPdf, hex, hlock]
  refine ⟨hne, ?_, ?_, ?_, ?_, ?_⟩ <;>
    simp [extract_text_from_pdf, hbody, countOpens, countSleeps, countRasterize,
      List.countP_cons, isOpenEv, isSleepEv, isRasterEv]

/-- C10 witness at a concrete input. -/
theorem c10_short_file_witness :
    (envShortFile.pathExists (envShortFile.normpath "doc.pdf") = true ∧
     envShortFile.openOk 0 = true ∧
     envShortFile.fileContent.length < 4) ∧
    (envShortFile.fileContent.take 4 ≠ pdfMagic ∧
     (bodyPdf envShortFile "doc.pdf" "deu").1 = .ok "" ∧
     (extract_text_from_pdf envShortFile "doc.pdf" "deu").1 = "" ∧
     countOpens (extract_text_from_pdf envShortFile "doc.pdf" "deu").2 = 1 ∧
     countSleeps (extract_text_from_pdf envShortFile "doc.pdf" "deu").2 = 0 ∧
     countRasterize (extract_text_from_pdf envShortFile "doc.pdf" "deu").2 = 0) :=
  ⟨⟨by decide, by decide, by decide⟩,
   c10_short_file envShortFile "doc.pdf" "deu" (by decide) (by decide) (by decide)⟩

/-- C9 (implicit): a valid readable PDF that rasterizes to zero page images
makes full-document extraction return the empty string through its success
path: the body returns `.ok ""` (the join of an empty block list), an
informational record is logged and no error record is logged. -/
theorem c9_zero_pages (env : Env) (p l : String)
    (hex : env.pathExists (env.normpath p) = true)
    (hopen : env.openOk 0 = true)
    (hmag : env.fileContent.take 4 = pdfMagic)
    (hpop : env.pathExists (popplerDir env) = true)
    (hconv : env.convertFull (env.normpath p) 300 (popplerDir env) = .ok []) :
    (bodyPdf env p l).1 = .ok "" ∧
    (extract_text_from_pdf env p l).1 = "" ∧
    countLogs .info (extract_text_from_pdf env p l).2 = 1 ∧
    countLogs .error (extract_text_from_pdf env p l).2 = 0 := by
  have hlock : lockLoop env 0 3 = (.proceed, [.openAttempt 0]) := by
    simp [lockLoop, hopen, hmag]
  have hbody : bodyPdf env p l =
      (.ok "", [.openAttempt 0, .log .debug, .rasterize, .log .info]) := by
    simp [bodyPdf, hex, hlock, hpop, hconv, ocrPages]
    rfl
  refine ⟨?_, ?_, ?_, ?_⟩ <;>
    simp [extract_text_from_pdf, hbody, countLogs, List.countP_cons, isLogEv]

/-- C9 witness at a concrete input. -/
theorem c9_zero_pages_witness :
    (envZeroPages.pathExists (envZeroPages.normpath "doc.pdf") = true ∧
     envZeroPages.openOk 0 = true ∧
     envZeroPages.fileContent.take 4 = pdfMagic ∧
     envZeroPages.pathExists (popplerDir envZeroPages) = true ∧
     envZeroPages.convertFull (envZeroPages.normpath "doc.pdf") 300 (popplerDir envZeroPages) = .ok []) ∧
    ((bodyPdf envZeroPages "doc.pdf" "deu").1 = .ok "" ∧
     (extract_text_from_pdf envZeroPages "doc.pdf" "deu").1 = "" ∧
     countLogs .info (extract_text_from_pdf envZeroPages "doc.pdf" "deu").2 = 1 ∧
     countLogs .error (extract_text_from_pdf envZeroPages "doc.pdf" "deu").2 = 0) :=
  ⟨⟨by decide, by decide, by decide, by decide, by rfl⟩,
   c9_zero_pages envZeroPages "doc.pdf" "deu" (by decide) (by decide) (by decide)
     (by decide) (by rfl)⟩

/-- For an existing file, the full-extraction trace is the retry-loop trace
followed by events that contain no open attempt and no sleep. -/
theorem extract_pdf_decomp (env : Env) (p l : String)
    (hex : env.pathExists (env.normpath p) = true) :
    ∃ rest, (extract_text_from_pdf env p l).2 = (lockLoop env 0 3).2 ++ rest ∧
      countOpens rest = 0 ∧ countSleeps rest = 0 := by
  rcases hlock : lockLoop env 0 3 with ⟨res, tr0⟩
  cases res with
  | badHeader =>
    refine ⟨[], ?_, by decide, by decide⟩
    simp [extract_text_from_pdf, bodyPdf, hex, hlock]
  | openFailed =>
    refine ⟨[], ?_, by decide, by decide⟩
    simp [extract_text_from_pdf, bodyPdf, hex, hlock]
  | proceed =>
    by_cases hpop : env.pathExists (popplerDir env) = true
    · rcases hconv : env.convertFull (env.normpath p) 300 (popplerDir env) with e | imgs
      · refine ⟨[.log .debug, .rasterize, .log .error], ?_, by decide, by decide⟩
        simp [extract_text_from_pdf, bodyPdf, hex, hlock, hpop, hconv]
      · rcases hocr : ocrPages env l imgs 0 with ⟨pres, ptr⟩
        have hc := ocrPages_counts env l imgs 0
        rw [hocr] at hc
        cases pres with
        | error e =>
          refine ⟨[.log .debug, .rasterize] ++ ptr ++ [.log .error], ?_, ?_, ?_⟩
          · simp [extract_text_from_pdf, bodyPdf, hex, hlock, hpop, hconv, hocr]
          · simp [countOpens, List.countP_append, List.countP_cons, isOpenEv] at hc ⊢
            exact hc.1
          · simp [countSleeps, List.countP_append, List.countP_cons, isSleepEv] at hc ⊢
            exact hc.2.1
        | ok blocks =>
          refine ⟨[.log .debug, .rasterize] ++ ptr ++ [.log .info], ?_, ?_, ?_⟩
          · simp [extract_text_from_pdf, bodyPdf, hex, hlock, hpop, hconv, hocr]
          · simp [countOpens, List.countP_append, List.countP_cons, isOpenEv] at hc ⊢
            exact hc.1
          · simp [countSleeps, List.countP_append, List.countP_cons, isSleepEv] at hc ⊢
            exact hc.2.1
    · rw [Bool.not_eq_true] at hpop
      refine ⟨[.log .debug, .log .error], ?_, by decide, by decide⟩
      simp [extract_text_from_pdf, bodyPdf, hex, hlock, hpop]

/-- C2: retry semantics of the lock/readiness check.  For an existing file:
the file is opened at most 3 times; every pause between attempts is 1
second; if all 3 open attempts raise, the result is the empty string after
exactly 3 opens and 2 sleeps; if the first successful open (attempt `j`)
reads a header other than `%PDF`, the operation returns the empty string
immediately after `j + 1` opens and `j` sleeps, never rasterizing. -/
theorem c2_retry (env : Env) (p l : String)
    (hex : env.pathExists (env.normpath p) = true) :
    countOpens (extract_text_from_pdf env p l).2 ≤ 3 ∧
    (∀ n, Event.sleep n ∈ (extract_text_from_pdf env p l).2 → n = 1) ∧
    ((∀ k, k < 3 → env.openOk k = false) →
      (extract_text_from_pdf env p l).1 = "" ∧
      countOpens (extract_text_from_pdf env p l).2 = 3 ∧
      countSleeps (extract_text_from_pdf env p l).2 = 2 ∧
      countRasterize (extract_text_from_pdf env p l).2 = 0) ∧
    (∀ j, j < 3 → (∀ k, k < j → env.openOk k = false) → env.openOk j = true →
      env.fileContent.take 4 ≠ pdfMagic →
      (extract_text_from_pdf env p l).1 = "" ∧
      countOpens (extract_text_from_pdf env p l).2 = j + 1 ∧
      countSleeps (extract_text_from_pdf env p l).2 = j ∧
      countRasterize (extract_text_from_pdf env p l).2 = 0) := by
  obtain ⟨rest, htr, hro, hrs⟩ := extract_pdf_decomp env p l hex
  refine ⟨?_, ?_, ?_, ?_⟩
  · rw [htr]
    unfold countOpens at hro ⊢
    rw [List.countP_append, hro]
    simpa [countOpens] using lockLoop_opens_le env 3 0
  · intro n hn
    rw [htr, List.mem_append] at hn
    rcases hn with hn | hn
    · exact lockLoop_sleep_one env 3 0 n hn
    · exfalso
      have := List.countP_eq_zero.mp hrs
      exact absurd (by simp [isSleepEv] : isSleepEv (Event.sleep n) = true)
        (by simpa using this _ hn)
  · intro hf
    have h0 := hf 0 (by omega)
    have h1 := hf 1 (by omega)
    have h2 := hf 2 (by omega)
    have hlock : lockLoop env 0 3 =
        (.openFailed,
         [.openAttempt 0, .log .warning, .sleep 1,
          .openAttempt 1, .log .warning, .sleep 1,
          .openAttempt 2, .log .error]) := by
      simp [lockLoop, h0, h1, h2]
    have hbody : bodyPdf env p l =
        (.ok "",
         [.openAttempt 0, .log .warning, .sleep 1,
          .openAttempt 1, .log .warning, .sleep 1,
          .openAttempt 2, .log .error]) := by
      simp [bodyPdf, hex, hlock]
    refine ⟨?_, ?_, ?_, ?_⟩ <;> simp [extract_text_from_pdf, hbody] <;> decide
  · intro j hj hprev hj' hbad
    have hj3 : j = 0 ∨ j = 1 ∨ j = 2 := by omega
    rcases hj3 with rfl | rfl | rfl
    · have hlock : lockLoop env 0 3 = (.badHeader, [.openAttempt 0, .log .error]) := by
        simp [lockLoop, hj', hbad]
      have hbody : bodyPdf env p l = (.ok "", [.openAttempt 0, .log .error]) := by
        simp [bodyPdf, hex, hlock]
      refine ⟨?_, ?_, ?_, ?_⟩ <;> simp [extract_text_from_pdf, hbody] <;> decide
    · have h0 := hprev 0 (by omega)
      have hlock : lockLoop env 0 3 =
          (.badHeader,
           [.openAttempt 0, .log .warning, .sleep 1, .openAttempt 1, .log .error]) := by
        simp [lockLoop, h0, hj', hbad]
      have hbody : bodyPdf env p l =
          (.ok "",
           [.openAttempt 0, .log .warning, .sleep 1, .openAttempt 1, .log .error]) := by
        simp [bodyPdf, hex, hlock]
      refine ⟨?_, ?_, ?_, ?_⟩ <;> simp [extract_text_from_pdf, hbody] <;> decide
    · have h0 := hprev 0 (by omega)
      have h1 := hprev 1 (by omega)
      have hlock : lockLoop env 0 3 =
          (.badHeader,
           [.openAttempt 0, .log .warning, .sleep 1,
            .openAttempt 1, .log .warning, .sleep 1,
            .openAttempt 2, .log .error]) := by
        simp [lockLoop, h0, h1, hj', hbad]
      have hbody : bodyPdf env p l =
          (.ok "",
           [.openAttempt 0, .log .warning, .sleep 1,
            .openAttempt 1, .log .warning, .sleep 1,
            .openAttempt 2, .log .error]) := by
        simp [bodyPdf, hex, hlock]
      refine ⟨?_, ?_, ?_, ?_⟩ <;> simp [extract_text_from_pdf, hbody] <;> decide

/-- C2 witness at a concrete input (a permanently locked file). -/
theorem c2_retry_witness :
    envLocked.pathExists (envLocked.normpath "doc.pdf") = true ∧
    (countOpens (extract_text_from_pdf envLocked "doc.pdf" "deu").2 ≤ 3 ∧
     (∀ n, Event.sleep n ∈ (extract_text_from_pdf envLocked "doc.pdf" "deu").2 → n = 1) ∧
     ((∀ k, k < 3 → envLocked.openOk k = false) →
       (extract_text_from_pdf envLocked "doc.pdf" "deu").1 = "" ∧
       countOpens (extract_text_from_pdf envLocked "doc.pdf" "deu").2 = 3 ∧
       countSleeps (extract_text_from_pdf envLocked "doc.pdf" "deu").2 = 2 ∧
       countRasterize (extract_text_from_pdf envLocked "doc.pdf" "deu").2 = 0) ∧
     (∀ j, j < 3 → (∀ k, k < j → envLocked.openOk k = false) → envLocked.openOk j = true →
       envLocked.fileContent.take 4 ≠ pdfMagic →
       (extract_text_from_pdf envLocked "doc.pdf" "deu").1 = "" ∧
       countOpens (extract_text_from_pdf envLocked "doc.pdf" "deu").2 = j + 1 ∧
       countSleeps (extract_text_from_pdf envLocked "doc.pdf" "deu").2 = j ∧
       countRasterize (extract_text_from_pdf envLocked "doc.pdf" "deu").2 = 0)) :=
  ⟨by decide, c2_retry envLocked "doc.pdf" "deu" (by decide)⟩

/-- For an existing file, zone extraction performs no open attempt, no
sleep, and exactly one rasterizer invocation, whatever the environment
does. -/
theorem zone_trace_counts (env : Env) (p : String) (pg : Int)
    (z : Int × Int × Int × Int) (l : String)
    (hex : env.pathExists (env.normpath p) = true) :
    countOpens (extract_text_from_zone env p pg z l).2 = 0 ∧
    countSleeps (extract_text_from_zone env p pg z l).2 = 0 ∧
    countRasterize (extract_text_from_zone env p pg z l).2 = 1 := by
  rcases z with ⟨x, y, w, h⟩
  rcases hconv : env.convertPage (env.normpath p) 300 pg pg (popplerDir env) with e | imgs
  · have hzz : (extract_text_from_zone env p pg (x, y, w, h) l).2 =
        [.log .debug, .rasterize, .log .error] := by
      simp [extract_text_from_zone, bodyZone, hex, hconv]
    refine ⟨?_, ?_, ?_⟩ <;> rw [hzz] <;> decide
  · cases imgs with
    | nil =>
      have hzz : (extract_text_from_zone env p pg (x, y, w, h) l).2 =
          [.log .debug, .rasterize, .log .warning] := by
        simp [extract_text_from_zone, bodyZone, hex, hconv]
      refine ⟨?_, ?_, ?_⟩ <;> rw [hzz] <;>
        simp [countOpens, countSleeps, countRasterize, List.countP_cons,
          isOpenEv, isSleepEv, isRasterEv]
    | cons img rest =>
      rcases hcrop : env.cropImg img (x, y, x + w, y + h) with e | cr
      · have hzz : (extract_text_from_zone env p pg (x, y, w, h) l).2 =
            [.log .debug, .rasterize, .crop (x, y, x + w, y + h), .log .error] := by
          simp [extract_text_from_zone, bodyZone, hex, hconv, hcrop]
        refine ⟨?_, ?_, ?_⟩ <;> rw [hzz] <;>
        simp [countOpens, countSleeps, countRasterize, List.countP_cons,
          isOpenEv, isSleepEv, isRasterEv]
      · rcases hocr : env.ocrZone (env.grayscale cr) l zoneConfig with e | t
        · have hzz : (extract_text_from_zone env p pg (x, y, w, h) l).2 =
              [.log .debug, .rasterize, .crop (x, y, x + w, y + h), .log .error] := by
            simp [extract_text_from_zone, bodyZone, hex, hconv, hcrop, hocr]
          refine ⟨?_, ?_, ?_⟩ <;> rw [hzz] <;>
        simp [countOpens, countSleeps, countRasterize, List.countP_cons,
          isOpenEv, isSleepEv, isRasterEv]
        · have hzz : (extract_text_from_zone env p pg (x, y, w, h) l).2 =
              [.log .debug, .rasterize, .crop (x, y, x + w, y + h), .log .debug] := by
            simp [extract_text_from_zone, bodyZone, hex, hconv, hcrop, hocr]
          refine ⟨?_, ?_, ?_⟩ <;> rw [hzz] <;>
        simp [countOpens, countSleeps, countRasterize, List.countP_cons,
          isOpenEv, isSleepEv, isRasterEv]

/-- C6: asymmetric validation.  Zone extraction never opens the file for a
signature or lock check (no open attempt, no sleep), and for an existing
file whose first 4 bytes are not `%PDF` it still invokes the rasterizer
exactly once rather than rejecting the file. -/
theorem c6_zone_asymmetry (env : Env) (p : String) (pg : Int)
    (z : Int × Int × Int × Int) (l : String)
    (hex : env.pathExists (env.normpath p) = true)
    (hbad : env.fileContent.take 4 ≠ pdfMagic) :
    countOpens (extract_text_from_zone env p pg z l).2 = 0 ∧
    countSleeps (extract_text_from_zone env p pg z l).2 = 0 ∧
    countRasterize (extract_text_from_zone env p pg z l).2 = 1 :=
  zone_trace_counts env p pg z l hex

/-- C6 witness at a concrete input (a ZIP header instead of `%PDF`). -/
theorem c6_zone_asymmetry_witness :
    (envBadMagic.pathExists (envBadMagic.normpath "doc.pdf") = true ∧
     envBadMagic.fileContent.take 4 ≠ pdfMagic) ∧
    (countOpens (extract_text_from_zone envBadMagic "doc.pdf" 1 (0, 0, 200, 50) "deu").2 = 0 ∧
     countSleeps (extract_text_from_zone envBadMagic "doc.pdf" 1 (0, 0, 200, 50) "deu").2 = 0 ∧
     countRasterize (extract_text_from_zone envBadMagic "doc.pdf" 1 (0, 0, 200, 50) "deu").2 = 1) :=
  ⟨⟨by decide, by decide⟩,
   c6_zone_asymmetry envBadMagic "doc.pdf" 1 (0, 0, 200, 50) "deu" (by decide) (by decide)⟩

/-- C7: a missing `../poppler/bin` support directory makes full-document
extraction return the empty string without ever rasterizing, while zone
extraction (on an existing file) performs no such check and still invokes
the rasterizer. -/
theorem c7_poppler_missing (env : Env) (p l : String) (pg : Int)
    (z : Int × Int × Int × Int)
    (hpop : env.pathExists (popplerDir env) = false) :
    (extract_text_from_pdf env p l).1 = "" ∧
    countRasterize (extract_text_from_pdf env p l).2 = 0 ∧
    (env.pathExists (env.normpath p) = true →
      countRasterize (extract_text_from_zone env p pg z l).2 = 1) := by
  have hmain : (extract_text_from_pdf env p l).1 = "" ∧
      countRasterize (extract_text_from_pdf env p l).2 = 0 := by
    by_cases hex : env.pathExists (env.normpath p) = true
    · rcases hlock : lockLoop env 0 3 with ⟨res, tr0⟩
      have hnr := lockLoop_no_raster env 3 0
      rw [hlock] at hnr
      cases res with
      | badHeader =>
        have hbody : bodyPdf env p l = (.ok "", tr0) := by
          simp [bodyPdf, hex, hlock]
        exact ⟨by simp [extract_text_from_pdf, hbody], by simp [extract_text_from_pdf, hbody, hnr]⟩
      | openFailed =>
        have hbody : bodyPdf env p l = (.ok "", tr0) := by
          simp [bodyPdf, hex, hlock]
        exact ⟨by simp [extract_text_from_pdf, hbody], by simp [extract_text_from_pdf, hbody, hnr]⟩
      | proceed =>
        have hbody : bodyPdf env p l = (.ok "", tr0 ++ [.log .debug, .log .error]) := by
          simp [bodyPdf, hex, hlock, hpop]
        refine ⟨by simp [extract_text_from_pdf, hbody], ?_⟩
        simp [extract_text_from_pdf, hbody, countRasterize, List.countP_append,
          List.countP_cons, isRasterEv]
        simpa [countRasterize] using hnr
    · rw [Bool.not_eq_true] at hex
      have hbody : bodyPdf env p l = (.ok "", [.log .error]) := by
        simp [bodyPdf, hex]
      exact ⟨by simp [extract_text_from_pdf, hbody], by simp [extract_text_from_pdf, hbody]; decide⟩
  exact ⟨hmain.1, hmain.2, fun hex => (zone_trace_counts env p pg z l hex).2.2⟩

/-- C7 witness at a concrete input (everything exists except poppler). -/
theorem c7_poppler_missing_witness :
    envNoPoppler.pathExists (popplerDir envNoPoppler) = false ∧
    ((extract_text_from_pdf envNoPoppler "doc.pdf" "deu").1 = "" ∧
     countRasterize (extract_text_from_pdf envNoPoppler "doc.pdf" "deu").2 = 0 ∧
     (envNoPoppler.pathExists (envNoPoppler.normpath "doc.pdf") = true →
       countRasterize (extract_text_from_zone envNoPoppler "doc.pdf" 1 (0, 0, 200, 50) "deu").2 = 1)) :=
  ⟨by decide, c7_poppler_missing envNoPoppler "doc.pdf" "deu" 1 (0, 0, 200, 50) (by decide)⟩

/-- C8: zone semantics.  For any zone `(x, y, w, h)` (bounds are not
pre-validated), when rasterization, crop and OCR succeed, the crop
primitive is invoked with exactly the box `(x, y, x + w, y + h)`, the OCR
text of the grayscaled crop is returned stripped, and a non-empty result
neither starts nor ends with whitespace. -/
theorem c8_zone_semantics (env : Env) (p l : String) (pg : Int) (x y w h : Int)
    (img cr : Image) (rest : List Image) (t : String)
    (hex : env.pathExists (env.normpath p) = true)
    (hconv : env.convertPage (env.normpath p) 300 pg pg (popplerDir env) = .ok (img :: rest))
    (hcrop : env.cropImg img (x, y, x + w, y + h) = .ok cr)
    (hocr : env.ocrZone (env.grayscale cr) l zoneConfig = .ok t) :
    (extract_text_from_zone env p pg (x, y, w, h) l).1 = pyStrip t ∧
    Event.crop (x, y, x + w, y + h) ∈ (extract_text_from_zone env p pg (x, y, w, h) l).2 ∧
    (∀ c, (extract_text_from_zone env p pg (x, y, w, h) l).1.data.head? = some c →
      isPySpace c = false) ∧
    (∀ c, (extract_text_from_zone env p pg (x, y, w, h) l).1.data.getLast? = some c →
      isPySpace c = false) := by
  have hzz : extract_text_from_zone env p pg (x, y, w, h) l =
      (pyStrip t, [.log .debug, .rasterize, .crop (x, y, x + w, y + h), .log .debug]) := by
    simp [extract_text_from_zone, bodyZone, hex, hconv, hcrop, hocr]
  refine ⟨by rw [hzz], by rw [hzz]; simp, ?_, ?_⟩
  · intro c hc
    rw [hzz] at hc
    exact pyStrip_head hc
  · intro c hc
    rw [hzz] at hc
    exact pyStrip_getLast hc

/-- C8 witness at a concrete input: zone `(0, 0, 200, 50)` whose OCR reads
a whitespace-padded "Invoice #123". -/
theorem c8_zone_semantics_witness :
    (envHappy.pathExists (envHappy.normpath "doc.pdf") = true ∧
     envHappy.convertPage (envHappy.normpath "doc.pdf") 300 1 1 (popplerDir envHappy) = .ok (5 :: []) ∧
     envHappy.cropImg 5 (0, 0, 0 + 200, 0 + 50) = .ok 105 ∧
     envHappy.ocrZone (envHappy.grayscale 105) "deu" zoneConfig = .ok "  Invoice #123  ") ∧
    ((extract_text_from_zone envHappy "doc.pdf" 1 (0, 0, 200, 50) "deu").1 = pyStrip "  Invoice #123  " ∧
     Event.crop (0, 0, 0 + 200, 0 + 50) ∈ (extract_text_from_zone envHappy "doc.pdf" 1 (0, 0, 200, 50) "deu").2 ∧
     (∀ c, (extract_text_from_zone envHappy "doc.pdf" 1 (0, 0, 200, 50) "deu").1.data.head? = some c →
       isPySpace c = false) ∧
     (∀ c, (extract_text_from_zone envHappy "doc.pdf" 1 (0, 0, 200, 50) "deu").1.data.getLast? = some c →
       isPySpace c = false)) :=
  ⟨⟨by decide, by rfl, by rfl, by rfl⟩,
   c8_zone_semantics envHappy "doc.pdf" "deu" 1 0 0 200 50 5 105 [] "  Invoice #123  "
     (by decide) (by rfl) (by rfl) (by rfl)⟩

/-- OCR succeeding on every page yields one text per page. -/
theorem ocrTexts_length (env : Env) (l : String) :
    ∀ imgs texts, ocrTexts env l imgs = some texts → texts.length = imgs.length := by
  intro imgs
  induction imgs with
  | nil => intro texts ht; simp [ocrTexts] at ht; simp [← ht]
  | cons img rest ih =>
    intro texts ht
    simp only [ocrTexts] at ht
    rcases hocr : env.ocrFull (env.grayscale img) l with e | t <;> rw [hocr] at ht
    · simp at ht
    · rcases hts : ocrTexts env l rest with _ | ts <;> rw [hts] at ht <;> simp at ht
      rw [← ht]
      simp [ih ts hts]

/-- If OCR succeeds on every page, the per-page loop returns the page
blocks built from the texts, numbered from the starting index. -/
theorem ocrPages_ok (env : Env) (l : String) :
    ∀ imgs texts i, ocrTexts env l imgs = some texts →
      (ocrPages env l imgs i).1 = .ok (blocksFrom i texts) := by
  intro imgs
  induction imgs with
  | nil =>
    intro texts i ht
    simp [ocrTexts] at ht
    subst ht
    simp [ocrPages, blocksFrom]
  | cons img rest ih =>
    intro texts i ht
    simp only [ocrTexts] at ht
    rcases hocr : env.ocrFull (env.grayscale img) l with e | t <;> rw [hocr] at ht
    · simp at ht
    · rcases hts : ocrTexts env l rest with _ | ts <;> rw [hts] at ht <;> simp at ht
      have hr := ih ts (i + 1) hts
      rcases hpr : ocrPages env l rest (i + 1) with ⟨pres, ptr⟩
      rw [hpr] at hr
      simp only at hr
      simp [ocrPages, hocr, hpr, hr, ← ht, blocksFrom]

/-- The page blocks carry one entry per page text. -/
theorem blocksFrom_length : ∀ (texts : List String) (i : Nat),
    (blocksFrom i texts).length = texts.length := by
  intro texts
  induction texts with
  | nil => intro i; simp [blocksFrom]
  | cons t ts ih => intro i; simp [blocksFrom, ih]

/-- A page block is its delimiter header, a newline, and the page text. -/
theorem pageBlock_split (i : Nat) (t : String) :
    pageBlock i t = seiteMarker (i + 1) ++ "\n" ++ t := by
  unfold pageBlock seiteMarker
  rw [String.append_assoc ("--- Seite " ++ toString (i + 1)) " ---" "\n"]
  rfl

/-- The page blocks written as the zip of page numbers `i+1, i+2, ...`
with the page texts, as the spec words it. -/
theorem blocksFrom_eq_zip : ∀ (texts : List String) (i : Nat),
    blocksFrom i texts =
      (List.zip (List.range' (i + 1) texts.length) texts).map
        (fun pr => "--- Seite " ++ toString pr.1 ++ " ---\n" ++ pr.2) := by
  intro texts
  induction texts with
  | nil => intro i; simp [blocksFrom]
  | cons t ts ih =>
    intro i
    rw [blocksFrom]
    simp only [List.length_cons, List.range'_succ, List.zip_cons_cons, List.map_cons]
    rw [ih (i + 1)]
    rfl

/-- Each page block begins with the delimiter of its 1-based page number. -/
theorem blocksFrom_get : ∀ (texts : List String) (i j : Nat)
    (hj : j < (blocksFrom i texts).length),
    ∃ rest, (blocksFrom i texts).get ⟨j, hj⟩ = seiteMarker (i + j + 1) ++ "\n" ++ rest := by
  intro texts
  induction texts with
  | nil => intro i j hj; simp [blocksFrom] at hj
  | cons t ts ih =>
    intro i j hj
    cases j with
    | zero =>
      refine ⟨t, ?_⟩
      simp [blocksFrom, pageBlock_split]
    | succ j' =>
      have hj2 : j' < (blocksFrom (i + 1) ts).length := by
        have h' := hj
        simp only [blocksFrom, List.length_cons] at h'
        omega
      obtain ⟨rest, hr⟩ := ih (i + 1) j' hj2
      refine ⟨rest, ?_⟩
      have hg : (blocksFrom i (t :: ts)).get ⟨j' + 1, hj⟩ =
          (blocksFrom (i + 1) ts).get ⟨j', hj2⟩ := rfl
      rw [hg, hr]
      have hn : i + 1 + j' + 1 = i + (j' + 1) + 1 := by omega
      rw [hn]

/-- C4: exact assembly.  For a valid document whose pages OCR to texts
`t1..tN`, full-document extraction returns exactly the blocks
`"--- Seite i ---\n" ++ ti` for `i = 1..N` joined by `"\n\n"`. -/
theorem c4_exact_assembly (env : Env) (p l : String) (imgs : List Image) (texts : List String)
    (hex : env.pathExists (env.normpath p) = true)
    (hopen : env.openOk 0 = true)
    (hmag : env.fileContent.take 4 = pdfMagic)
    (hpop : env.pathExists (popplerDir env) = true)
    (hconv : env.convertFull (env.normpath p) 300 (popplerDir env) = .ok imgs)
    (htexts : ocrTexts env l imgs = some texts) :
    (extract_text_from_pdf env p l).1 = String.intercalate "\n\n" (specBlocks texts) := by
  have hlock : lockLoop env 0 3 = (.proceed, [.openAttempt 0]) := by
    simp [lockLoop, hopen, hmag]
  rcases hpr : ocrPages env l imgs 0 with ⟨pres, ptr⟩
  have hok := ocrPages_ok env l imgs texts 0 htexts
  rw [hpr] at hok
  simp only at hok
  subst hok
  have hbody : bodyPdf env p l =
      (.ok (String.intercalate "\n\n" (blocksFrom 0 texts)),
       [.openAttempt 0] ++ [.log .debug, .rasterize] ++ ptr ++ [.log .info]) := by
    simp [bodyPdf, hex, hlock, hpop, hconv, hpr]
  rw [extract_text_from_pdf, hbody]
  simp only
  rw [specBlocks, ← blocksFrom_eq_zip]

/-- C4 witness: the 2-page scenario with INVOICE on page 1 and RECEIPT on
page 2 assembles to the exact delimiter format. -/
theorem c4_exact_assembly_witness :
    (envHappy.pathExists (envHappy.normpath "doc.pdf") = true ∧
     envHappy.openOk 0 = true ∧
     envHappy.fileContent.take 4 = pdfMagic ∧
     envHappy.pathExists (popplerDir envHappy) = true ∧
     envHappy.convertFull (envHappy.normpath "doc.pdf") 300 (popplerDir envHappy) = .ok [0, 1] ∧
     ocrTexts envHappy "deu" [0, 1] = some ["INVOICE", "RECEIPT"]) ∧
    (extract_text_from_pdf envHappy "doc.pdf" "deu").1 =
      String.intercalate "\n\n" (specBlocks ["INVOICE", "RECEIPT"]) ∧
    String.intercalate "\n\n" (specBlocks ["INVOICE", "RECEIPT"]) =
      "--- Seite 1 ---\nINVOICE\n\n--- Seite 2 ---\nRECEIPT" :=
  ⟨⟨by decide, by decide, by decide, by decide, by rfl, by rfl⟩,
   c4_exact_assembly envHappy "doc.pdf" "deu" [0, 1] ["INVOICE", "RECEIPT"]
     (by decide) (by decide) (by decide) (by decide) (by rfl) (by rfl),
   by decide⟩

/-- C3 counterexample: the delimiter the code writes is `--- Seite N ---`,
not `--- Page N ---`.  On a concrete valid 2-page document the result
contains no `--- Page 1 ---` (or `--- Page 2 ---`) marker at all, so it
cannot contain exactly N such markers. -/
theorem c3_counterexample :
    (extract_text_from_pdf envHappy "doc.pdf" "deu").1 =
      "--- Seite 1 ---\nINVOICE\n\n--- Seite 2 ---\nRECEIPT" ∧
    containsSub ("--- Page 1 ---".data)
      (extract_text_from_pdf envHappy "doc.pdf" "deu").1.data = false ∧
    containsSub ("--- Page 2 ---".data)
      (extract_text_from_pdf envHappy "doc.pdf" "deu").1.data = false := by
  refine ⟨by decide, by decide, by decide⟩

/-- C3 amended: for every valid N-page document the result is the
blank-line join of exactly N page blocks, the i-th beginning with the
delimiter header `--- Seite i ---` followed by a newline and the text of
that page — i.e. N delimiters in order `Seite 1` through `Seite N`. -/
theorem c3_page_delimiters (env : Env) (p l : String) (imgs : List Image) (texts : List String)
    (hex : env.pathExists (env.normpath p) = true)
    (hopen : env.openOk 0 = true)
    (hmag : env.fileContent.take 4 = pdfMagic)
    (hpop : env.pathExists (popplerDir env) = true)
    (hconv : env.convertFull (env.normpath p) 300 (popplerDir env) = .ok imgs)
    (htexts : ocrTexts env l imgs = some texts) :
    ∃ blocks : List String,
      (extract_text_from_pdf env p l).1 = String.intercalate "\n\n" blocks ∧
      blocks.length = imgs.length ∧
      ∀ i (hi : i < blocks.length),
        ∃ rest, blocks.get ⟨i, hi⟩ = seiteMarker (i + 1) ++ "\n" ++ rest := by
  have hlock : lockLoop env 0 3 = (.proceed, [.openAttempt 0]) := by
    simp [lockLoop, hopen, hmag]
  rcases hpr : ocrPages env l imgs 0 with ⟨pres, ptr⟩
  have hok := ocrPages_ok env l imgs texts 0 htexts
  rw [hpr] at hok
  simp only at hok
  subst hok
  have hbody : bodyPdf env p l =
      (.ok (String.intercalate "\n\n" (blocksFrom 0 texts)),
       [.openAttempt 0] ++ [.log .debug, .rasterize] ++ ptr ++ [.log .info]) := by
    simp [bodyPdf, hex, hlock, hpop, hconv, hpr]
  refine ⟨blocksFrom 0 texts, ?_, ?_, ?_⟩
  · rw [extract_text_from_pdf, hbody]
  · rw [blocksFrom_length, ocrTexts_length env l imgs texts htexts]
  · intro i hi
    have := blocksFrom_get texts 0 i hi
    simpa using this

/-- C3 amended witness at the concrete 2-page input. -/
theorem c3_page_delimiters_witness :
    (envHappy.pathExists (envHappy.normpath "doc.pdf") = true ∧
     envHappy.openOk 0 = true ∧
     envHappy.fileContent.take 4 = pdfMagic ∧
     envHappy.pathExists (popplerDir envHappy) = true ∧
     envHappy.convertFull (envHappy.normpath "doc.pdf") 300 (popplerDir envHappy) = .ok [0, 1] ∧
     ocrTexts envHappy "deu" [0, 1] = some ["INVOICE", "RECEIPT"]) ∧
    (∃ blocks : List String,
      (extract_text_from_pdf envHappy "doc.pdf" "deu").1 = String.intercalate "\n\n" blocks ∧
      blocks.length = ([0, 1] : List Image).length ∧
      ∀ i (hi : i < blocks.length),
        ∃ rest, blocks.get ⟨i, hi⟩ = seiteMarker (i + 1) ++ "\n" ++ rest) :=
  ⟨⟨by decide, by decide, by decide, by decide, by rfl, by rfl⟩,
   c3_page_delimiters envHappy "doc.pdf" "deu" [0, 1] ["INVOICE", "RECEIPT"]
     (by decide) (by decide) (by decide) (by decide) (by rfl) (by rfl)⟩

end OCRProc
